import Mathlib

/-!
GDL-90 encoder (xp2gdl90): shallow embedding and verification.

This file embeds the GDL-90 message encoder of `src/gdl90_encoder.cpp`
(namespace `gdl90`, class `GDL90Encoder`) into Lean and proves the
specification's claims about it.

Modelling conventions:
* C++ unsigned integer arithmetic is modelled on `Nat`; wherever the C++
  code truncates (assignment to a narrower unsigned type, explicit `&`
  masks, `static_cast<uint8_t>`), the model applies the corresponding
  `&&& mask` / `% 2^w` operation.
* C++ signed integers (`int16_t`, `int32_t`) are modelled on `Int`;
  C++ `/` on signed integers truncates toward zero and is modelled by
  `Int.tdiv`.
* C++ `double` values are modelled by exact rationals `ℚ`;
  `static_cast<int32_t>` applied to a `double` truncates toward zero and
  is modelled by `qtrunc`.  (The claims proved about the coordinate
  encoders concern only clamping behaviour and exactly representable
  boundary values, where double rounding plays no role.)
* `std::vector<uint8_t>` is modelled as `List Nat`.
* The one impure ingredient, `getUTCTime` (a wall-clock read used by
  `createHeartbeat`), is modelled by passing the timestamp it would
  return as an explicit `timestamp : Nat` parameter.
-/

namespace gdl90

/-- Message ID of the heartbeat message (`MSG_ID_HEARTBEAT`). -/
def MSG_ID_HEARTBEAT : Nat := 0x00

/-- Message ID of the ownship report (`MSG_ID_OWNSHIP_REPORT`). -/
def MSG_ID_OWNSHIP_REPORT : Nat := 0x0A

/-- Message ID of the traffic report (`MSG_ID_TRAFFIC_REPORT`). -/
def MSG_ID_TRAFFIC_REPORT : Nat := 0x14

/-- The fixed "no data" vertical-velocity pattern (`VVELOCITY_INVALID`). -/
def VVELOCITY_INVALID : Nat := 0x800

/-- The hardcoded 256-entry CRC-16-CCITT lookup table
(`GDL90Encoder::crc16_table_`), transcribed entry for entry from the
source. -/
def crc16_table : List Nat := [
  0x0000, 0x1021, 0x2042, 0x3063, 0x4084, 0x50a5, 0x60c6, 0x70e7,
  0x8108, 0x9129, 0xa14a, 0xb16b, 0xc18c, 0xd1ad, 0xe1ce, 0xf1ef,
  0x1231, 0x0210, 0x3273, 0x2252, 0x52b5, 0x4294, 0x72f7, 0x62d6,
  0x9339, 0x8318, 0xb37b, 0xa35a, 0xd3bd, 0xc39c, 0xf3ff, 0xe3de,
  0x2462, 0x3443, 0x0420, 0x1401, 0x64e6, 0x74c7, 0x44a4, 0x5485,
  0xa56a, 0xb54b, 0x8528, 0x9509, 0xe5ee, 0xf5cf, 0xc5ac, 0xd58d,
  0x3653, 0x2672, 0x1611, 0x0630, 0x76d7, 0x66f6, 0x5695, 0x46b4,
  0xb75b, 0xa77a, 0x9719, 0x8738, 0xf7df, 0xe7fe, 0xd79d, 0xc7bc,
  0x48c4, 0x58e5, 0x6886, 0x78a7, 0x0840, 0x1861, 0x2802, 0x3823,
  0xc9cc, 0xd9ed, 0xe98e, 0xf9af, 0x8948, 0x9969, 0xa90a, 0xb92b,
  0x5af5, 0x4ad4, 0x7ab7, 0x6a96, 0x1a71, 0x0a50, 0x3a33, 0x2a12,
  0xdbfd, 0xcbdc, 0xfbbf, 0xeb9e, 0x9b79, 0x8b58, 0xbb3b, 0xab1a,
  0x6ca6, 0x7c87, 0x4ce4, 0x5cc5, 0x2c22, 0x3c03, 0x0c60, 0x1c41,
  0xedae, 0xfd8f, 0xcdec, 0xddcd, 0xad2a, 0xbd0b, 0x8d68, 0x9d49,
  0x7e97, 0x6eb6, 0x5ed5, 0x4ef4, 0x3e13, 0x2e32, 0x1e51, 0x0e70,
  0xff9f, 0xefbe, 0xdfdd, 0xcffc, 0xbf1b, 0xaf3a, 0x9f59, 0x8f78,
  0x9188, 0x81a9, 0xb1ca, 0xa1eb, 0xd10c, 0xc12d, 0xf14e, 0xe16f,
  0x1080, 0x00a1, 0x30c2, 0x20e3, 0x5004, 0x4025, 0x7046, 0x6067,
  0x83b9, 0x9398, 0xa3fb, 0xb3da, 0xc33d, 0xd31c, 0xe37f, 0xf35e,
  0x02b1, 0x1290, 0x22f3, 0x32d2, 0x4235, 0x5214, 0x6277, 0x7256,
  0xb5ea, 0xa5cb, 0x95a8, 0x8589, 0xf56e, 0xe54f, 0xd52c, 0xc50d,
  0x34e2, 0x24c3, 0x14a0, 0x0481, 0x7466, 0x6447, 0x5424, 0x4405,
  0xa7db, 0xb7fa, 0x8799, 0x97b8, 0xe75f, 0xf77e, 0xc71d, 0xd73c,
  0x26d3, 0x36f2, 0x0691, 0x16b0, 0x6657, 0x7676, 0x4615, 0x5634,
  0xd94c, 0xc96d, 0xf90e, 0xe92f, 0x99c8, 0x89e9, 0xb98a, 0xa9ab,
  0x5844, 0x4865, 0x7806, 0x6827, 0x18c0, 0x08e1, 0x3882, 0x28a3,
  0xcb7d, 0xdb5c, 0xeb3f, 0xfb1e, 0x8bf9, 0x9bd8, 0xabbb, 0xbb9a,
  0x4a75, 0x5a54, 0x6a37, 0x7a16, 0x0af1, 0x1ad0, 0x2ab3, 0x3a92,
  0xfd2e, 0xed0f, 0xdd6c, 0xcd4d, 0xbdaa, 0xad8b, 0x9de8, 0x8dc9,
  0x7c26, 0x6c07, 0x5c64, 0x4c45, 0x3ca2, 0x2c83, 0x1ce0, 0x0cc1,
  0xef1f, 0xff3e, 0xcf5d, 0xdf7c, 0xaf9b, 0xbfba, 0x8fd9, 0x9ff8,
  0x6e17, 0x7e36, 0x4e55, 0x5e74, 0x2e93, 0x3eb2, 0x0ed1, 0x1ef0
]

/-- One step of the table-driven CRC computation: the body of the loop in
`GDL90Encoder::calculateCRC`, namely
`crc = crc16_table_[crc >> 8] ^ (crc << 8) ^ byte` where the assignment
to the `uint16_t` variable `crc` truncates to 16 bits. -/
def crcStep (crc byte : Nat) : Nat :=
  ((crc16_table.getD (crc >>> 8) 0) ^^^ (crc <<< 8) ^^^ byte) &&& 0xFFFF

/-- Embedding of `GDL90Encoder::calculateCRC`: CRC-16-CCITT over a byte list, seeded
at 0. -/
def calculateCRC (data : List Nat) : Nat :=
  data.foldl crcStep 0

/-- Embedding of `GDL90Encoder::escapeMessage`: byte-stuffing.  Every byte equal to
0x7D or 0x7E is replaced by 0x7D followed by the byte XOR 0x20; all other
bytes pass through unchanged. -/
def escapeMessage : List Nat → List Nat
  | [] => []
  | byte :: rest =>
    (if byte = 0x7D ∨ byte = 0x7E then [0x7D, byte ^^^ 0x20] else [byte])
      ++ escapeMessage rest

/-- Embedding of `GDL90Encoder::prepareMessage`: append the CRC low byte first, escape
the result, and wrap it in 0x7E flag bytes. -/
def prepareMessage (payload : List Nat) : List Nat :=
  let crc := calculateCRC payload
  let msg_with_crc := payload ++ [crc &&& 0xFF, (crc >>> 8) &&& 0xFF]
  0x7E :: (escapeMessage msg_with_crc ++ [0x7E])

/-- Truncation of a rational toward zero, the semantics of C++
`static_cast<int32_t>` on a `double` value. -/
def qtrunc (q : ℚ) : Int :=
  q.num.tdiv (q.den : Int)

/-- Embedding of `std::min` on `double` values: `(b < a) ? b : a`. -/
def stdMin (a b : ℚ) : ℚ :=
  if b < a then b else a

/-- Embedding of `std::max` on `double` values: `(a < b) ? b : a`. -/
def stdMax (a b : ℚ) : ℚ :=
  if a < b then b else a

/-- Embedding of `GDL90Encoder::encodeLatitude`: clamp to [-90, 90],
scale by `0x800000 / 180`, truncate toward zero, and convert negatives to
24-bit two's complement. -/
def encodeLatitude (latitude : ℚ) : Nat :=
  let latitude := stdMax (-90) (stdMin 90 latitude)
  let value : Int := qtrunc (latitude * (0x800000 / 180))
  if value < 0 then ((0x1000000 + value).toNat &&& 0xFFFFFF) else value.toNat

/-- Embedding of `GDL90Encoder::encodeLongitude`: clamp to [-180, 180],
scale by `0x800000 / 180`, truncate toward zero, and convert negatives to
24-bit two's complement. -/
def encodeLongitude (longitude : ℚ) : Nat :=
  let longitude := stdMax (-180) (stdMin 180 longitude)
  let value : Int := qtrunc (longitude * (0x800000 / 180))
  if value < 0 then ((0x1000000 + value).toNat &&& 0xFFFFFF) else value.toNat

/-- Embedding of `GDL90Encoder::encodeAltitude`: 25-foot increments offset by +1000
feet, clamped to [0, 0xFFE]. -/
def encodeAltitude (altitude : Int) : Nat :=
  let encoded := (altitude + 1000).tdiv 25
  let encoded := if encoded < 0 then 0 else encoded
  let encoded := if encoded > 0xFFE then 0xFFE else encoded
  encoded.toNat

/-- Embedding of `GDL90Encoder::encodeVerticalVelocity`: the sentinel `INT16_MIN`
maps to the invalid pattern 0x800; inputs above 32576 saturate to 0x1FE
and below -32576 to 0xE02; otherwise divide by 64 (truncating) and encode
negatives in 12-bit two's complement. -/
def encodeVerticalVelocity (vv_fpm : Int) : Nat :=
  if vv_fpm = -32768 then VVELOCITY_INVALID
  else if vv_fpm > 32576 then 0x1FE
  else if vv_fpm < -32576 then 0xE02
  else
    let value := vv_fpm.tdiv 64
    if value < 0 then ((0x1000 + value).toNat &&& 0xFFF) else value.toNat

/-- Embedding of `GDL90Encoder::encodeTrack`: degrees to 360/256 resolution; the
final `% 256` is the `static_cast<uint8_t>` of the source. -/
def encodeTrack (track : Nat) : Nat :=
  ((track % 360) * 256 / 360) % 256

/-- Embedding of `GDL90Encoder::pack24bit`: a 24-bit value as 3 big-endian bytes. -/
def pack24bit (value : Nat) : List Nat :=
  [(value >>> 16) &&& 0xFF, (value >>> 8) &&& 0xFF, value &&& 0xFF]

/-- The `PositionData` input structure.  C++ field types: `latitude`,
`longitude` are `double` (modelled by `ℚ`); `altitude` is `int32_t` and
`v_velocity` is `int16_t` (modelled by `Int`); the unsigned fields are
modelled by `Nat`; `callsign` is a byte string modelled by `List Nat`
(`static_cast<uint8_t>` on its characters appears as `&&& 0xFF` at the
use site); the three `uint8_t`-backed enums (`track_type`,
`emitter_category`, `address_type`) are modelled by their numeric
values. -/
structure PositionData where
  latitude : ℚ
  longitude : ℚ
  altitude : Int
  h_velocity : Nat
  v_velocity : Int
  track : Nat
  track_type : Nat
  airborne : Bool
  nic : Nat
  nacp : Nat
  icao_address : Nat
  callsign : List Nat
  emitter_category : Nat
  address_type : Nat
  alert_status : Nat
  emergency_code : Nat

/-- The unframed payload built by `GDL90Encoder::createPositionReport`
before `prepareMessage` is applied: message ID, status/address byte,
24-bit ICAO address, encoded latitude, longitude, altitude+misc, NIC/NACp,
horizontal and vertical velocity, track, emitter category, 8-byte
space-padded callsign, and emergency/priority code. -/
def positionPayload (msg_id : Nat) (data : PositionData) : List Nat :=
  let st := ((data.alert_status &&& 0x0F) <<< 4) ||| (data.address_type &&& 0x0F)
  let alt := encodeAltitude data.altitude
  let misc := ((if data.airborne then 1 else 0) <<< 3) ||| (0 <<< 2) ||| (data.track_type &&& 0x03)
  let h_vel := min data.h_velocity 0xFFE
  let v_vel := encodeVerticalVelocity data.v_velocity
  let callsign := data.callsign.take 8 ++ List.replicate (8 - min data.callsign.length 8) 0x20
  [msg_id, st]
    ++ pack24bit data.icao_address
    ++ pack24bit (encodeLatitude data.latitude)
    ++ pack24bit (encodeLongitude data.longitude)
    ++ [(alt >>> 4) &&& 0xFF, ((alt &&& 0x0F) <<< 4) ||| (misc &&& 0x0F),
        ((data.nic &&& 0x0F) <<< 4) ||| (data.nacp &&& 0x0F),
        (h_vel >>> 4) &&& 0xFF, ((h_vel &&& 0x0F) <<< 4) ||| ((v_vel >>> 8) &&& 0x0F),
        v_vel &&& 0xFF,
        encodeTrack data.track,
        data.emitter_category &&& 0xFF]
    ++ callsign.map (fun c => c &&& 0xFF)
    ++ [(data.emergency_code &&& 0x0F) <<< 4]

/-- Embedding of `GDL90Encoder::createPositionReport`: frame the position payload. -/
def createPositionReport (msg_id : Nat) (data : PositionData) : List Nat :=
  prepareMessage (positionPayload msg_id data)

/-- Embedding of `GDL90Encoder::createOwnshipReport` (message ID 0x0A). -/
def createOwnshipReport (data : PositionData) : List Nat :=
  createPositionReport MSG_ID_OWNSHIP_REPORT data

/-- Embedding of `GDL90Encoder::createTrafficReport` (message ID 0x14). -/
def createTrafficReport (data : PositionData) : List Nat :=
  createPositionReport MSG_ID_TRAFFIC_REPORT data

/-- The unframed 7-byte heartbeat payload built by
`GDL90Encoder::createHeartbeat`; `timestamp` is the value the internal
`getUTCTime` clock read would return. -/
def heartbeatPayload (gps_valid utc_ok : Bool) (timestamp : Nat) : List Nat :=
  let status1 : Nat := 0x01
  let status1 := if gps_valid then status1 ||| 0x80 else status1
  let status2 : Nat := 0x00
  let status2 := if utc_ok then status2 ||| 0x01 else status2
  let status2 := if timestamp &&& 0x10000 ≠ 0 then status2 ||| 0x80 else status2
  [MSG_ID_HEARTBEAT, status1, status2,
   timestamp &&& 0xFF, (timestamp >>> 8) &&& 0xFF,
   0x00, 0x00]

/-- Embedding of `GDL90Encoder::createHeartbeat`: frame the heartbeat payload. -/
def createHeartbeat (gps_valid utc_ok : Bool) (timestamp : Nat) : List Nat :=
  prepareMessage (heartbeatPayload gps_valid utc_ok timestamp)

/-- Reference CRC table generation step, following the spec: one step of
shift-left-and-XOR-0x1021-on-carry in a 16-bit register. -/
def crcEntryStep (r : Nat) : Nat :=
  if r &&& 0x8000 ≠ 0 then ((r <<< 1) ^^^ 0x1021) &&& 0xFFFF else (r <<< 1) &&& 0xFFFF

/-- Reference CRC table entry, following the spec: shift the index into
the high byte of a 16-bit register and perform eight
shift-left-and-XOR-0x1021-on-carry steps. -/
def crcTableEntry (i : Nat) : Nat :=
  crcEntryStep^[8] (i <<< 8)

/-- Reference CRC table generated from the polynomial 0x1021, to be
compared with the hardcoded `crc16_table`. -/
def generatedCrcTable : List Nat :=
  (List.range 256).map crcTableEntry

/-- Decoder for the claims about produced frames: undo the escaping by
replacing each `0x7D x` pair by `x XOR 0x20`; other bytes pass through. -/
def unescape : List Nat → List Nat
  | [] => []
  | b :: rest =>
    if b = 0x7D then
      match rest with
      | x :: tail => (x ^^^ 0x20) :: unescape tail
      | [] => [b]
    else b :: unescape rest

/-- Position-wise check of the framing claim on a frame interior: no byte
equals 0x7E, and every occurrence of 0x7D is immediately followed by
0x5D or 0x5E. -/
def interiorOk : List Nat → Bool
  | [] => true
  | [b] => b != 0x7E && b != 0x7D
  | b :: c :: rest =>
    (b != 0x7E && (b != 0x7D || c == 0x5D || c == 0x5E)) && interiorOk (c :: rest)

/-- Check of the full framing claim: the frame begins and ends with the
flag byte 0x7E and its interior satisfies `interiorOk`. -/
def framingOk (frame : List Nat) : Bool :=
  frame.head? == some 0x7E && frame.getLast? == some 0x7E &&
    interiorOk ((frame.drop 1).dropLast)

/-- Decoder for the claims about produced frames: strip the two flag
bytes, undo the escaping, and drop the two trailing CRC bytes, leaving
the unframed payload. -/
def unframePayload (frame : List Nat) : List Nat :=
  let u := unescape ((frame.drop 1).dropLast)
  u.take (u.length - 2)

/-- Check of the CRC round-trip claim: strip the two flag bytes, undo the
escaping, split off the last two bytes, and compare the CRC computed over
the remaining payload with the 16-bit value formed from those two bytes
taken low byte first. -/
def crcOk (frame : List Nat) : Bool :=
  let u := unescape ((frame.drop 1).dropLast)
  match u.drop (u.length - 2) with
  | [lo, hi] => calculateCRC (u.take (u.length - 2)) == lo + (hi <<< 8)
  | _ => false

/-- Concrete `PositionData` value used to instantiate theorems with
hypotheses: longitude at the +180 boundary and the reserved horizontal
velocity input 0xFFF. -/
def samplePosition : PositionData where
  latitude := 37
  longitude := 180
  altitude := 1000
  h_velocity := 0xFFF
  v_velocity := 0
  track := 90
  track_type := 1
  airborne := true
  nic := 8
  nacp := 8
  icao_address := 0xABCDEF
  callsign := [0x4E, 0x31, 0x32, 0x33, 0x34, 0x35]
  emitter_category := 1
  address_type := 0
  alert_status := 0
  emergency_code := 0

/-! ## Helper lemmas -/

/-- Disjoint bit-or is addition: or-ing `2 ^ k * a` with a `k`-bit value
adds them. -/
theorem or_two_pow_mul_add (k : Nat) :
    ∀ a b : Nat, b < 2 ^ k → 2 ^ k * a ||| b = 2 ^ k * a + b := by
  induction k with
  | zero =>
    intro a b hb
    interval_cases b
    simp
  | succ k ih =>
    intro a b hb
    have hx : (2 : Nat) ^ (k + 1) * a = 2 * (2 ^ k * a) := by ring
    have hdiv : (2 ^ (k + 1) * a ||| b) / 2 = 2 ^ k * a + b / 2 := by
      rw [Nat.or_div_two, hx, Nat.mul_div_cancel_left _ (by norm_num : (0 : Nat) < 2),
        ih a (b / 2) (by omega)]
    have hpar : (2 ^ (k + 1) * a ||| b) % 2 = b % 2 := by
      have h1 := Nat.testBit_or (2 ^ (k + 1) * a) b 0
      have h2 : (2 ^ (k + 1) * a).testBit 0 = false := by
        rw [Nat.testBit_zero, hx]
        simp [Nat.mul_mod_right]
      rw [h2] at h1
      simp only [Bool.false_or] at h1
      rw [Nat.testBit_zero, Nat.testBit_zero] at h1
      rcases Nat.mod_two_eq_zero_or_one (2 ^ (k + 1) * a ||| b) with h3 | h3 <;>
        rcases Nat.mod_two_eq_zero_or_one b with h4 | h4 <;>
        simp [h3, h4] at h1 ⊢
    have hd := Nat.div_add_mod (2 ^ (k + 1) * a ||| b) 2
    have hbd := Nat.div_add_mod b 2
    have h2 : (2 : Nat) ^ (k + 1) = 2 * 2 ^ k := by ring
    omega

/-- Special case of `or_two_pow_mul_add` for nibble packing. -/
theorem or_sixteen_mul_add (a b : Nat) (h : b < 16) : a <<< 4 ||| b = 16 * a + b := by
  have h1 : a <<< 4 = 16 * a := by rw [Nat.shiftLeft_eq]; ring
  rw [h1]
  have := or_two_pow_mul_add 4 a b (by norm_num [h])
  norm_num at this
  exact this

/-- Masking with 0xFF is reduction modulo 256. -/
theorem and_0xFF (n : Nat) : n &&& 0xFF = n % 256 := by
  have := Nat.and_pow_two_sub_one_eq_mod n 8
  norm_num at this
  exact this

/-- Masking with 0xF is reduction modulo 16. -/
theorem and_0xF (n : Nat) : n &&& 0xF = n % 16 := by
  have := Nat.and_pow_two_sub_one_eq_mod n 4
  norm_num at this
  exact this

/-- Masking with 0xFFF is reduction modulo 4096. -/
theorem and_0xFFF (n : Nat) : n &&& 0xFFF = n % 4096 := by
  have := Nat.and_pow_two_sub_one_eq_mod n 12
  norm_num at this
  exact this

/-- Masking with 0xFFFF is reduction modulo 65536. -/
theorem and_0xFFFF (n : Nat) : n &&& 0xFFFF = n % 65536 := by
  have := Nat.and_pow_two_sub_one_eq_mod n 16
  norm_num at this
  exact this

/-- Shifting right by 4 is division by 16. -/
theorem shiftRight_four (n : Nat) : n >>> 4 = n / 16 := by
  rw [Nat.shiftRight_eq_div_pow]

/-- Shifting right by 8 is division by 256. -/
theorem shiftRight_eight (n : Nat) : n >>> 8 = n / 256 := by
  rw [Nat.shiftRight_eq_div_pow]

/-- Truncating division expressed through Euclidean division, by sign of
the dividend. -/
theorem tdiv_eq_ediv_cases (x d : Int) (hd : 0 < d) :
    x.tdiv d = if 0 ≤ x then x / d else -((-x) / d) := by
  split_ifs with h
  · exact Int.tdiv_eq_ediv h (by omega)
  · have h1 := Int.neg_tdiv x d
    have h2 : (-x).tdiv d = (-x) / d := Int.tdiv_eq_ediv (by omega) (by omega)
    omega

/-- Truncation of an integer-valued rational is that integer. -/
theorem qtrunc_intCast (n : Int) : qtrunc (n : ℚ) = n := by
  unfold qtrunc
  simp

/-- One CRC step stays below 2^16. -/
theorem crcStep_lt (c b : Nat) : crcStep c b < 65536 := by
  unfold crcStep
  rw [and_0xFFFF]
  omega

/-- Folding CRC steps stays below 2^16. -/
theorem foldl_crcStep_lt (l : List Nat) : ∀ c, c < 65536 → l.foldl crcStep c < 65536 := by
  induction l with
  | nil => exact fun c h => h
  | cons b t ih => exact fun c _ => ih _ (crcStep_lt c b)

/-- The computed CRC is a 16-bit value. -/
theorem calculateCRC_lt (l : List Nat) : calculateCRC l < 65536 :=
  foldl_crcStep_lt l 0 (by norm_num)

/-- Prepending a non-reserved byte preserves `interiorOk`. -/
theorem interiorOk_cons (c : Nat) (t : List Nat) (h1 : c ≠ 0x7E) (h2 : c ≠ 0x7D)
    (h : interiorOk t = true) : interiorOk (c :: t) = true := by
  cases t with
  | nil => simp [interiorOk, h1, h2]
  | cons e t => simp [interiorOk, h1, h2] at h ⊢; exact h

/-- The escaped form of any byte list satisfies the interior framing
property. -/
theorem interiorOk_escape (l : List Nat) : interiorOk (escapeMessage l) = true := by
  induction l with
  | nil => rfl
  | cons b rest ih =>
    by_cases hb : b = 0x7D ∨ b = 0x7E
    · have he : escapeMessage (b :: rest) = 0x7D :: (b ^^^ 0x20) :: escapeMessage rest := by
        simp [escapeMessage, hb]
      rw [he]
      rcases hb with hb | hb <;> subst hb
      · show interiorOk (0x7D :: 0x5D :: escapeMessage rest) = true
        simp only [interiorOk]
        rw [interiorOk_cons 0x5D _ (by decide) (by decide) ih]
        decide
      · show interiorOk (0x7D :: 0x5E :: escapeMessage rest) = true
        simp only [interiorOk]
        rw [interiorOk_cons 0x5E _ (by decide) (by decide) ih]
        decide
    · push_neg at hb
      have he : escapeMessage (b :: rest) = b :: escapeMessage rest := by
        simp [escapeMessage, hb.1, hb.2]
      rw [he]
      exact interiorOk_cons b _ hb.2 hb.1 ih

/-- Unfolding `unescape` on a byte that is not the escape character. -/
theorem unescape_cons_of_ne (b : Nat) (rest : List Nat) (h : b ≠ 0x7D) :
    unescape (b :: rest) = b :: unescape rest := by
  conv_lhs => rw [unescape.eq_def]
  simp only
  rw [if_neg h]

/-- Unfolding `unescape` on an escape pair. -/
theorem unescape_cons_escape (b : Nat) (t : List Nat) :
    unescape (0x7D :: b :: t) = (b ^^^ 0x20) :: unescape t := by
  conv_lhs => rw [unescape.eq_def]
  simp

/-- Unescaping inverts escaping. -/
theorem unescape_escapeMessage (l : List Nat) : unescape (escapeMessage l) = l := by
  induction l with
  | nil => rfl
  | cons b rest ih =>
    by_cases hb : b = 0x7D ∨ b = 0x7E
    · have he : escapeMessage (b :: rest) = 0x7D :: (b ^^^ 0x20) :: escapeMessage rest := by
        simp [escapeMessage, hb]
      rw [he, unescape_cons_escape, Nat.xor_assoc, ih, Nat.xor_self, Nat.xor_zero]
    · push_neg at hb
      have he : escapeMessage (b :: rest) = b :: escapeMessage rest := by
        simp [escapeMessage, hb.1, hb.2]
      rw [he, unescape_cons_of_ne b _ hb.1, ih]

/-- The interior of a prepared frame is the escaped payload-plus-CRC. -/
theorem interior_prepareMessage (p : List Nat) :
    ((prepareMessage p).drop 1).dropLast =
      escapeMessage (p ++ [calculateCRC p &&& 0xFF, (calculateCRC p >>> 8) &&& 0xFF]) := by
  simp only [prepareMessage]
  simp [List.dropLast_concat]

/-- Every prepared frame satisfies the framing property. -/
theorem framingOk_prepareMessage (p : List Nat) : framingOk (prepareMessage p) = true := by
  have hint := interior_prepareMessage p
  unfold framingOk
  rw [hint, interiorOk_escape]
  simp only [prepareMessage]
  rw [show (0x7E : Nat) :: (escapeMessage (p ++ [calculateCRC p &&& 0xFF, (calculateCRC p >>> 8) &&& 0xFF]) ++ [0x7E]) = ((0x7E : Nat) :: escapeMessage (p ++ [calculateCRC p &&& 0xFF, (calculateCRC p >>> 8) &&& 0xFF])) ++ [0x7E] from rfl]
  rw [List.getLast?_concat]
  simp

/-- Unframing a prepared frame recovers the payload. -/
theorem unframePayload_prepareMessage (p : List Nat) : unframePayload (prepareMessage p) = p := by
  unfold unframePayload
  rw [interior_prepareMessage, unescape_escapeMessage]
  dsimp only
  have hl : (p ++ [calculateCRC p &&& 0xFF, (calculateCRC p >>> 8) &&& 0xFF]).length - 2 = p.length := by
    simp
  rw [hl, List.take_left]

/-- Every prepared frame satisfies the CRC round-trip property. -/
theorem crcOk_prepareMessage (p : List Nat) : crcOk (prepareMessage p) = true := by
  unfold crcOk
  rw [interior_prepareMessage, unescape_escapeMessage]
  dsimp only
  have hl : (p ++ [calculateCRC p &&& 0xFF, (calculateCRC p >>> 8) &&& 0xFF]).length - 2 = p.length := by
    simp
  rw [hl, List.take_left, List.drop_left]
  have hc := calculateCRC_lt p
  simp only [beq_iff_eq]
  rw [and_0xFF, shiftRight_eight, and_0xFF, Nat.shiftLeft_eq]
  norm_num
  omega

/-- Sign-based evaluation of the positive longitude boundary. -/
theorem encodeLongitude_pos180 : encodeLongitude 180 = 0x800000 := by
  have harg : (180 : ℚ) * (0x800000 / 180) = ((8388608 : ℤ) : ℚ) := by
    push_cast
    norm_num
  simp only [encodeLongitude, stdMin, stdMax]
  norm_num [harg]
  rw [show (8388608 : ℚ) = ((8388608 : ℤ) : ℚ) by push_cast; ring, qtrunc_intCast]
  decide

/-- Sign-based evaluation of the negative longitude boundary. -/
theorem encodeLongitude_neg180 : encodeLongitude (-180) = 0x800000 := by
  have harg : (-180 : ℚ) * (0x800000 / 180) = ((-8388608 : ℤ) : ℚ) := by
    push_cast
    norm_num
  simp only [encodeLongitude, stdMin, stdMax]
  norm_num [harg]
  rw [show (-8388608 : ℚ) = ((-8388608 : ℤ) : ℚ) by push_cast; ring, qtrunc_intCast]
  decide

/-- The horizontal-velocity field stored in payload bytes 14 and 15 is
the clamped input. -/
theorem hvel_field_eq (msg_id : Nat) (d : PositionData) :
    (((positionPayload msg_id d).getD 14 0) <<< 4) |||
        (((positionPayload msg_id d).getD 15 0) >>> 4) = min d.h_velocity 0xFFE := by
  have h14 : (positionPayload msg_id d).getD 14 0 =
      ((min d.h_velocity 0xFFE) >>> 4) &&& 0xFF := rfl
  have h15 : (positionPayload msg_id d).getD 15 0 =
      (((min d.h_velocity 0xFFE) &&& 0xF) <<< 4) |||
        ((encodeVerticalVelocity d.v_velocity >>> 8) &&& 0xF) := rfl
  rw [h14, h15]
  have hw : min d.h_velocity 0xFFE ≤ 4094 := by omega
  rw [and_0xF, and_0xF,
    or_sixteen_mul_add _ _ (by omega : (encodeVerticalVelocity d.v_velocity >>> 8) % 16 < 16)]
  rw [shiftRight_four, and_0xFF, shiftRight_four]
  have hdiv : (16 * (min d.h_velocity 0xFFE % 16) +
      (encodeVerticalVelocity d.v_velocity >>> 8) % 16) / 16 = min d.h_velocity 0xFFE % 16 := by
    omega
  rw [hdiv, or_sixteen_mul_add _ _ (by omega : min d.h_velocity 0xFFE % 16 < 16)]
  omega

/-- The per-message-ID payloads differ only in their head byte. -/
theorem positionPayload_length (m : Nat) (d : PositionData) :
    (positionPayload m d).length = 28 := by
  simp [positionPayload, pack24bit]
  omega

/-! ## Claim theorems -/

/-- C1: for every input (any `PositionData` for the ownship and traffic
reports, any pair of booleans and any clock reading for the heartbeat),
the returned byte sequence begins and ends with the flag byte 0x7E, and
between those two flags no byte equals 0x7E and every occurrence of 0x7D
is immediately followed by 0x5D or 0x5E. -/
theorem C1_framing_invariant (gps_valid utc_ok : Bool) (ts : Nat) (d : PositionData) :
    framingOk (createHeartbeat gps_valid utc_ok ts) = true ∧
    framingOk (createOwnshipReport d) = true ∧
    framingOk (createTrafficReport d) = true :=
  ⟨framingOk_prepareMessage _, framingOk_prepareMessage _, framingOk_prepareMessage _⟩

/-- C2: for every frame produced by `createHeartbeat`,
`createOwnshipReport` or `createTrafficReport`, stripping the two flags,
undoing the escaping and splitting off the last two bytes yields a
payload whose table-driven CRC-16/CCITT (polynomial 0x1021, initial
value 0) equals the 16-bit value formed from those two trailing bytes
taken low byte first. -/
theorem C2_crc_roundtrip (gps_valid utc_ok : Bool) (ts : Nat) (d : PositionData) :
    crcOk (createHeartbeat gps_valid utc_ok ts) = true ∧
    crcOk (createOwnshipReport d) = true ∧
    crcOk (createTrafficReport d) = true :=
  ⟨crcOk_prepareMessage _, crcOk_prepareMessage _, crcOk_prepareMessage _⟩

set_option maxRecDepth 8000 in
/-- C3: the hardcoded 256-entry CRC lookup table equals, entry for entry,
the table generated from the non-reflected CRC-16/CCITT polynomial
0x1021. -/
theorem C3_crc_table : crc16_table = generatedCrcTable := by decide

/-- C4: for every signed 16-bit input, the vertical-velocity encoder
returns 0x800 on the sentinel minimum value, saturates to 0x1FE above
32576 and to 0xE02 below -32576, and otherwise returns the truncating
quotient by 64 encoded as a 12-bit two's-complement value. -/
theorem C4_vertical_velocity (v : Int) (h1 : -32768 ≤ v) (h2 : v < 32768) :
    encodeVerticalVelocity v =
      if v = -32768 then 0x800
      else if 32576 < v then 0x1FE
      else if v < -32576 then 0xE02
      else ((v.tdiv 64) % 4096).toNat := by
  unfold encodeVerticalVelocity VVELOCITY_INVALID
  split_ifs with ha hb hc
  · rfl
  · rfl
  · rfl
  · push_neg at ha hb hc
    have htd := tdiv_eq_ediv_cases v 64 (by norm_num)
    dsimp only
    split_ifs with hneg
    · rw [and_0xFFF]
      rcases le_or_lt 0 v with hs | hs
      · simp only [if_pos hs] at htd
        omega
      · simp only [if_neg (not_le.mpr hs)] at htd
        omega
    · rcases le_or_lt 0 v with hs | hs
      · simp only [if_pos hs] at htd
        omega
      · simp only [if_neg (not_le.mpr hs)] at htd
        omega

/-- Witness for C4 at the concrete input 300 (which encodes to 4). -/
theorem C4_vertical_velocity_witness :
    (-32768 : Int) ≤ 300 ∧ (300 : Int) < 32768 ∧
    encodeVerticalVelocity 300 =
      (if (300 : Int) = -32768 then 0x800
       else if 32576 < (300 : Int) then 0x1FE
       else if (300 : Int) < -32576 then 0xE02
       else (((300 : Int).tdiv 64) % 4096).toNat) :=
  ⟨by decide, by decide, C4_vertical_velocity 300 (by decide) (by decide)⟩

/-- C5: for every signed 32-bit altitude, the altitude encoder computes
the truncating quotient of (altitude + 1000) by 25 clamped into
[0, 0xFFE]; in particular -100000 and -1000 both encode to 0, any
altitude at or above 101350 encodes to 0xFFE, and the reserved value
0xFFF is never produced. -/
theorem C5_altitude (a : Int) (h1 : -2147483648 ≤ a) (h2 : a < 2147483648) :
    encodeAltitude a = (max 0 (min 4094 ((a + 1000).tdiv 25))).toNat ∧
    encodeAltitude a ≠ 0xFFF ∧
    (101350 ≤ a → encodeAltitude a = 0xFFE) ∧
    encodeAltitude (-100000) = 0 ∧
    encodeAltitude (-1000) = 0 := by
  have htd := tdiv_eq_ediv_cases (a + 1000) 25 (by norm_num)
  have hmain : encodeAltitude a = (max 0 (min 4094 ((a + 1000).tdiv 25))).toNat := by
    unfold encodeAltitude
    dsimp only
    rcases le_or_lt 0 (a + 1000) with hs | hs
    · rw [if_pos hs] at htd
      split_ifs <;> omega
    · rw [if_neg (not_le.mpr hs)] at htd
      split_ifs <;> omega
  refine ⟨hmain, ?_, ?_, by decide, by decide⟩
  · rw [hmain]
    omega
  · intro hge
    rw [hmain]
    rw [if_pos (by omega : (0 : Int) ≤ a + 1000)] at htd
    omega

/-- Witness for C5 at the concrete input 200000 (which clamps to
0xFFE). -/
theorem C5_altitude_witness :
    (-2147483648 : Int) ≤ 200000 ∧ (200000 : Int) < 2147483648 ∧
    encodeAltitude 200000 = 0xFFE :=
  ⟨by decide, by decide,
    (C5_altitude 200000 (by decide) (by decide)).2.2.1 (by decide)⟩

/-- C6: for every `PositionData`, the 12-bit horizontal-velocity field of
the report payload (high 8 bits in payload byte 14, low 4 bits in the
high nibble of byte 15) equals `min h_velocity 0xFFE`; in particular the
reserved input 0xFFF is encoded as 0xFFE and the 0xFFF field pattern is
never produced. -/
theorem C6_horizontal_velocity (msg_id : Nat) (d : PositionData) :
    (((positionPayload msg_id d).getD 14 0) <<< 4) |||
        (((positionPayload msg_id d).getD 15 0) >>> 4) = min d.h_velocity 0xFFE ∧
    (((positionPayload msg_id d).getD 14 0) <<< 4) |||
        (((positionPayload msg_id d).getD 15 0) >>> 4) ≠ 0xFFF ∧
    (d.h_velocity = 0xFFF →
      (((positionPayload msg_id d).getD 14 0) <<< 4) |||
          (((positionPayload msg_id d).getD 15 0) >>> 4) = 0xFFE) := by
  have key := hvel_field_eq msg_id d
  refine ⟨key, by rw [key]; omega, fun hh => by rw [key, hh]; decide⟩

/-- Witness for C6 at `samplePosition`, whose horizontal velocity is the
reserved input 0xFFF. -/
theorem C6_horizontal_velocity_witness :
    samplePosition.h_velocity = 0xFFF ∧
    (((positionPayload MSG_ID_TRAFFIC_REPORT samplePosition).getD 14 0) <<< 4) |||
        (((positionPayload MSG_ID_TRAFFIC_REPORT samplePosition).getD 15 0) >>> 4) = 0xFFE :=
  ⟨rfl, (C6_horizontal_velocity MSG_ID_TRAFFIC_REPORT samplePosition).2.2 rfl⟩

/-- C7: for every `PositionData`, the unframed 28-byte payloads of the
traffic and ownship reports are equal at every index except index 0,
where the traffic report has 0x14 and the ownship report has 0x0A. -/
theorem C7_traffic_ownship (d : PositionData) :
    (unframePayload (createTrafficReport d)).length = 28 ∧
    (unframePayload (createOwnshipReport d)).length = 28 ∧
    (unframePayload (createTrafficReport d)).getD 0 0 = 0x14 ∧
    (unframePayload (createOwnshipReport d)).getD 0 0 = 0x0A ∧
    (unframePayload (createTrafficReport d)).tail =
      (unframePayload (createOwnshipReport d)).tail := by
  have ht : unframePayload (createTrafficReport d) = positionPayload MSG_ID_TRAFFIC_REPORT d :=
    unframePayload_prepareMessage _
  have ho : unframePayload (createOwnshipReport d) = positionPayload MSG_ID_OWNSHIP_REPORT d :=
    unframePayload_prepareMessage _
  rw [ht, ho]
  exact ⟨positionPayload_length _ _, positionPayload_length _ _, rfl, rfl, rfl⟩

/-- C8: for every pair of booleans and every clock reading, the
heartbeat's unframed 7-byte payload has byte 0 equal to 0x00, byte 1 with
bit 0 always set and bit 7 set exactly when GPS is valid, byte 2 with
bit 0 set exactly when UTC timing is valid and bit 7 equal to bit 16 of
the timestamp, bytes 3-4 holding the low 16 bits of the timestamp
little-endian, and bytes 5-6 equal to 0x00. -/
theorem C8_heartbeat (gps_valid utc_ok : Bool) (ts : Nat) :
    (heartbeatPayload gps_valid utc_ok ts).getD 0 0 = 0x00 ∧
    ((heartbeatPayload gps_valid utc_ok ts).getD 1 0) &&& 0x01 = 0x01 ∧
    (((heartbeatPayload gps_valid utc_ok ts).getD 1 0) &&& 0x80 ≠ 0 ↔ gps_valid = true) ∧
    (((heartbeatPayload gps_valid utc_ok ts).getD 2 0) &&& 0x01 ≠ 0 ↔ utc_ok = true) ∧
    (((heartbeatPayload gps_valid utc_ok ts).getD 2 0) &&& 0x80 ≠ 0 ↔ ts &&& 0x10000 ≠ 0) ∧
    (heartbeatPayload gps_valid utc_ok ts).getD 3 0 +
      256 * (heartbeatPayload gps_valid utc_ok ts).getD 4 0 = ts % 65536 ∧
    (heartbeatPayload gps_valid utc_ok ts).getD 3 0 < 256 ∧
    (heartbeatPayload gps_valid utc_ok ts).getD 4 0 < 256 ∧
    (heartbeatPayload gps_valid utc_ok ts).getD 5 0 = 0x00 ∧
    (heartbeatPayload gps_valid utc_ok ts).getD 6 0 = 0x00 := by
  have hts : (ts &&& 0xFF) + 256 * ((ts >>> 8) &&& 0xFF) = ts % 65536 := by
    rw [and_0xFF, shiftRight_eight, and_0xFF]
    omega
  have h3 : ts &&& 0xFF < 256 := by rw [and_0xFF]; omega
  have h4 : (ts >>> 8) &&& 0xFF < 256 := by rw [and_0xFF]; omega
  cases gps_valid <;> cases utc_ok <;>
    by_cases hb : ts &&& 0x10000 = 0 <;>
      simp [heartbeatPayload, MSG_ID_HEARTBEAT, hb, hts, h3, h4]

/-- Witness for C8 at both booleans true and the clock reading 70000,
which exercises timestamp bit 16. -/
theorem C8_heartbeat_witness :
    (heartbeatPayload true true 70000).getD 0 0 = 0x00 ∧
    ((heartbeatPayload true true 70000).getD 1 0) &&& 0x01 = 0x01 ∧
    (((heartbeatPayload true true 70000).getD 1 0) &&& 0x80 ≠ 0 ↔ true = true) ∧
    (((heartbeatPayload true true 70000).getD 2 0) &&& 0x01 ≠ 0 ↔ true = true) ∧
    (((heartbeatPayload true true 70000).getD 2 0) &&& 0x80 ≠ 0 ↔ 70000 &&& 0x10000 ≠ 0) ∧
    (heartbeatPayload true true 70000).getD 3 0 +
      256 * (heartbeatPayload true true 70000).getD 4 0 = 70000 % 65536 ∧
    (heartbeatPayload true true 70000).getD 3 0 < 256 ∧
    (heartbeatPayload true true 70000).getD 4 0 < 256 ∧
    (heartbeatPayload true true 70000).getD 5 0 = 0x00 ∧
    (heartbeatPayload true true 70000).getD 6 0 = 0x00 :=
  C8_heartbeat true true 70000

/-- C9: the coordinate encoders are idempotent under clamping at the
range bounds, for latitude at plus or minus 90 and longitude at plus or
minus 180. -/
theorem C9_coordinate_clamp :
    encodeLatitude 91 = encodeLatitude 90 ∧
    encodeLatitude (-91) = encodeLatitude (-90) ∧
    encodeLongitude 181 = encodeLongitude 180 ∧
    encodeLongitude (-181) = encodeLongitude (-180) := by
  refine ⟨?_, ?_, ?_, ?_⟩ <;>
    · simp only [encodeLatitude, encodeLongitude, stdMin, stdMax]
      norm_num

/-- C10: `encodeLongitude` maps both +180 and -180 degrees to the same
value 0x800000, so the two extremes produce identical longitude bytes
0x80 0x00 0x00 (payload bytes 8-10) in every report. -/
theorem C10_longitude_wrap :
    encodeLongitude 180 = 0x800000 ∧
    encodeLongitude (-180) = 0x800000 ∧
    ∀ (m : Nat) (d : PositionData), (d.longitude = 180 ∨ d.longitude = -180) →
      (positionPayload m d).getD 8 0 = 0x80 ∧
      (positionPayload m d).getD 9 0 = 0x00 ∧
      (positionPayload m d).getD 10 0 = 0x00 := by
  refine ⟨encodeLongitude_pos180, encodeLongitude_neg180, ?_⟩
  intro m d hd
  have h8 : (positionPayload m d).getD 8 0 = (encodeLongitude d.longitude >>> 16) &&& 0xFF := rfl
  have h9 : (positionPayload m d).getD 9 0 = (encodeLongitude d.longitude >>> 8) &&& 0xFF := rfl
  have h10 : (positionPayload m d).getD 10 0 = encodeLongitude d.longitude &&& 0xFF := rfl
  rcases hd with hd | hd
  · rw [h8, h9, h10, hd, encodeLongitude_pos180]
    exact ⟨by decide, by decide, by decide⟩
  · rw [h8, h9, h10, hd, encodeLongitude_neg180]
    exact ⟨by decide, by decide, by decide⟩

/-- Witness for C10 at `samplePosition`, whose longitude is the +180
boundary. -/
theorem C10_longitude_wrap_witness :
    (samplePosition.longitude = 180 ∨ samplePosition.longitude = -180) ∧
    (positionPayload MSG_ID_TRAFFIC_REPORT samplePosition).getD 8 0 = 0x80 ∧
    (positionPayload MSG_ID_TRAFFIC_REPORT samplePosition).getD 9 0 = 0x00 ∧
    (positionPayload MSG_ID_TRAFFIC_REPORT samplePosition).getD 10 0 = 0x00 :=
  ⟨Or.inl rfl,
    C10_longitude_wrap.2.2 MSG_ID_TRAFFIC_REPORT samplePosition (Or.inl rfl)⟩

end gdl90
